import Mathlib

/-!
Verification of the Pose Quality Analysis Engine of the Yoga-AI-coaching
repository, as a shallow embedding in Lean 4.

The frontend utilities (geometry kernel in the drawing utils, the results
payload assembly, the ResultsPanel and RadarChart presentation helpers) are
embedded directly from the JavaScript sources.  The backend quality analyzer
(yoga_quality_analyzer.py: calculate_global_score, identify_priority_indicator,
determine_skill_level, and the analyze / report builder of api_v2.py) is not
part of the available sources, so those operations are modelled from the
specification and marked as such in their doc comments.

JavaScript numbers are modelled as real numbers for the transcendental
geometry primitives (Math.atan2, Math.sqrt) and as rationals elsewhere, so
that concrete reports can be evaluated by the kernel.
-/

/-- A detected anatomical keypoint: 3-D position plus a visibility
confidence, as produced by the landmark detector and consumed by the
geometry kernel and the backend (`formatLandmarksForBackend` keeps exactly
these four fields). -/
structure Landmark (α : Type) where
  x : α
  y : α
  z : α
  visibility : α
deriving DecidableEq, Repr

/-! ## Geometry kernel (frontend drawing utils)

`calculateAngle` and `calculateDistance` from the drawing utilities file,
modelled over the reals.  JavaScript's `Math.atan2 y x` is the argument of
the complex number `x + i y`, which lies in (-pi, pi]. -/

/-- JavaScript `Math.atan2 y x`: the argument of the complex number with
real part `x` and imaginary part `y`.  `atan2 0 0 = 0`, as in JavaScript. -/
noncomputable def atan2 (y x : ℝ) : ℝ :=
  Complex.arg ⟨x, y⟩

/-- `calculateAngle a b c` from the drawing utils: the absolute difference of
the two `atan2` directions at vertex `b`, converted to degrees, reflected to
`360 - angle` when above 180. -/
noncomputable def calculateAngle (a b c : Landmark ℝ) : ℝ :=
  let radians := atan2 (c.y - b.y) (c.x - b.x) - atan2 (a.y - b.y) (a.x - b.x)
  let angle := |radians * 180 / Real.pi|
  if angle > 180 then 360 - angle else angle

/-- `calculateDistance a b` from the drawing utils: Euclidean distance in the
x,y plane; the z coordinates are not read. -/
noncomputable def calculateDistance (a b : Landmark ℝ) : ℝ :=
  Real.sqrt ((a.x - b.x) ^ 2 + (a.y - b.y) ^ 2)

/-! Basic bounds for the angle primitive, shared by the range results. -/

theorem atan2_mem (y x : ℝ) : -Real.pi < atan2 y x ∧ atan2 y x ≤ Real.pi :=
  ⟨Complex.neg_pi_lt_arg _, Complex.arg_le_pi _⟩

theorem calculateAngle_bounds (a b c : Landmark ℝ) :
    0 ≤ calculateAngle a b c ∧ calculateAngle a b c ≤ 180 := by
  have hpi : (0:ℝ) < Real.pi := Real.pi_pos
  set r := atan2 (c.y - b.y) (c.x - b.x) - atan2 (a.y - b.y) (a.x - b.x) with hr
  have h1 := atan2_mem (c.y - b.y) (c.x - b.x)
  have h2 := atan2_mem (a.y - b.y) (a.x - b.x)
  have hrabs : |r| < 2 * Real.pi := by
    rw [abs_lt]
    constructor <;> [linarith [h1.1, h2.2]; linarith [h1.2, h2.1]]
  have hangle : |r * 180 / Real.pi| = |r| * 180 / Real.pi := by
    rw [abs_div, abs_mul, abs_of_pos hpi]
    norm_num
  have hlt : |r * 180 / Real.pi| < 360 := by
    rw [hangle, div_lt_iff₀ hpi]
    calc |r| * 180 < (2 * Real.pi) * 180 := by
          have := abs_nonneg r
          nlinarith
      _ = 360 * Real.pi := by ring
  have hnn : 0 ≤ |r * 180 / Real.pi| := abs_nonneg _
  show 0 ≤ (if |r * 180 / Real.pi| > 180 then 360 - |r * 180 / Real.pi|
      else |r * 180 / Real.pi|) ∧
    (if |r * 180 / Real.pi| > 180 then 360 - |r * 180 / Real.pi|
      else |r * 180 / Real.pi|) ≤ 180
  split <;> constructor <;> linarith

theorem calculateAngle_eq_cases (a b c : Landmark ℝ) :
    (|(atan2 (c.y - b.y) (c.x - b.x) - atan2 (a.y - b.y) (a.x - b.x)) * 180 / Real.pi| ≤ 180 →
      calculateAngle a b c =
        |(atan2 (c.y - b.y) (c.x - b.x) - atan2 (a.y - b.y) (a.x - b.x)) * 180 / Real.pi|) ∧
    (180 < |(atan2 (c.y - b.y) (c.x - b.x) - atan2 (a.y - b.y) (a.x - b.x)) * 180 / Real.pi| →
      calculateAngle a b c =
        360 - |(atan2 (c.y - b.y) (c.x - b.x) - atan2 (a.y - b.y) (a.x - b.x)) * 180 / Real.pi|) := by
  constructor <;> intro h <;> simp only [calculateAngle] <;> split <;> first | rfl | linarith


/-! ## Results payload assembly (frontend MediaPipe processor)

`formatLandmarksForBackend` and `handleMediaPipeResults` from the MediaPipe
processing components.  The payload handed to the parent carries the
formatted landmarks together with `Date.now()`, modelled as an explicit
wall-clock argument `now`. -/

/-- `formatLandmarksForBackend` from the drawing utils: keeps exactly the
x, y, z and visibility fields of every landmark. -/
def formatLandmarksForBackend (landmarks : List (Landmark ℚ)) : List (Landmark ℚ) :=
  landmarks.map fun l => ⟨l.x, l.y, l.z, l.visibility⟩

/-- The object passed to `onResults` by `handleMediaPipeResults`. -/
structure ResultsPayload where
  landmarks : List (Landmark ℚ)
  timestamp : ℕ
deriving DecidableEq, Repr

/-- `handleMediaPipeResults`: when at least one pose landmark was detected,
assemble the payload from the formatted landmarks and the current wall-clock
time (`Date.now()`); otherwise report nothing. -/
def handleMediaPipeResults (poseLandmarks : List (Landmark ℚ)) (now : ℕ) :
    Option ResultsPayload :=
  if poseLandmarks.length > 0 then
    some ⟨formatLandmarksForBackend poseLandmarks, now⟩
  else
    none

/-! ## Spec-modelled backend quality analyzer

`yoga_quality_analyzer.py` and `api_v2.py` are not among the available
sources (only their documentation is), so the aggregation, priority
selection, skill-level and report-builder operations are modelled from the
specification. -/

/-- Modelled from the spec: `round` to one decimal place, used by
`calculate_global_score` (the Python source is missing); the tie direction
is not fixed by the spec, half-up is chosen here. -/
def round1 (q : ℚ) : ℚ :=
  (⌊q * 10 + 1 / 2⌋ : ℚ) / 10

/-- Modelled from the spec: `calculate_global_score` of
`yoga_quality_analyzer.py` (missing from the sources) — the arithmetic mean
of all indicator scores in the IndicatorSet, rounded to one decimal place. -/
def calculate_global_score (indicators : List (String × ℚ)) : ℚ :=
  round1 ((indicators.map Prod.snd).sum / indicators.length)

/-- Modelled from the spec: `identify_priority_indicator` of
`yoga_quality_analyzer.py` (missing from the sources) — the indicator with
the strictly lowest score, ties broken by declaration order within the
IndicatorSet, first-declared wins. -/
def identify_priority_indicator : List (String × ℚ) → Option (String × ℚ)
  | [] => none
  | x :: xs =>
    match identify_priority_indicator xs with
    | none => some x
    | some p => if p.2 < x.2 then some p else some x

/-- Modelled from the spec: `determine_skill_level` of
`yoga_quality_analyzer.py` (missing from the sources) — a four-band
categorical label derived from the global score via ordered,
non-overlapping thresholds; the exact cutoffs are tunable configuration,
the constants here are consistent with the documented example
(global score 81.5 -> advanced). -/
def determine_skill_level (global_score : ℚ) : String :=
  if 90 ≤ global_score then "expert"
  else if 75 ≤ global_score then "advanced"
  else if 60 ≤ global_score then "intermediate"
  else "beginner"

/-- The five supported posture identifiers. -/
def supportedPoses : List String :=
  ["downdog", "plank", "tree", "warrior2", "goddess"]

/-- The structured quality report; `indicators` is absent (`none`) exactly
in the "unavailable" variant produced under the confidence gate. -/
structure QualityReport where
  pose : String
  indicators : Option (List (String × ℚ))
  feedback : List String
  global_score : Option ℚ
  skill_level : Option String
  priority_indicator : Option (String × ℚ)
deriving DecidableEq, Repr

/-- Hard failures of the report builder. -/
inductive AnalysisError where
  | inputShape
  | unknownPose
deriving DecidableEq, Repr

/-- Modelled from the spec: the Quality Report Builder entry point
`analyzeQuality` (backend `api_v2.py`, missing from the sources).  The five
posture analyzers are likewise missing and are passed in abstractly as
`analyzer`.  Wrong landmark count and unknown pose name fail fast; a
classification confidence below the 0.70 gating threshold yields the
"unavailable" report (no indicators, no global score); otherwise the full
report is assembled from the analyzer output and the aggregator. -/
def analyzeQuality
    (analyzer : String → List (Landmark ℚ) → List (String × ℚ) × List String)
    (landmarks : List (Landmark ℚ)) (poseName : String) (confidence : ℚ) :
    Except AnalysisError QualityReport :=
  if landmarks.length ≠ 33 then
    .error .inputShape
  else if poseName ∉ supportedPoses then
    .error .unknownPose
  else if confidence < 7 / 10 then
    .ok { pose := poseName, indicators := none, feedback := [],
          global_score := none, skill_level := none, priority_indicator := none }
  else
    .ok { pose := poseName,
          indicators := some (analyzer poseName landmarks).1,
          feedback := (analyzer poseName landmarks).2,
          global_score :=
            some (calculate_global_score (analyzer poseName landmarks).1),
          skill_level :=
            some (determine_skill_level
              (calculate_global_score (analyzer poseName landmarks).1)),
          priority_indicator :=
            identify_priority_indicator (analyzer poseName landmarks).1 }

/-! ## Presentation layer (ResultsPanel and RadarChart components) -/

/-- `renderQualityAnalysis` guard in the ResultsPanel component: the
"unavailable" rendering is chosen when there is no quality analysis at all
or its `indicators` field is absent. -/
def renderQualityAnalysisUnavailable (quality_analysis : Option QualityReport) : Bool :=
  match quality_analysis with
  | none => true
  | some qa => qa.indicators.isNone

/-- The skill-level label table of `getSkillLevelLabel` in the
ResultsPanel component. -/
def skillLabels : List (String × String) :=
  [("beginner", "Débutant"),
   ("intermediate", "Intermédiaire"),
   ("advanced", "Avancé")]

/-- `getSkillLevelLabel` from the ResultsPanel component: look the level up
in the label table, falling back to the raw value. -/
def getSkillLevelLabel (level : String) : String :=
  match skillLabels.lookup level with
  | some label => label
  | none => level

/-- JavaScript `String.prototype.includes`, over the character lists. -/
def includesStr (s sub : String) : Bool :=
  decide (sub.data <:+: s.data)

/-- `getFeedbackClass` from the ResultsPanel component: the severity class
inferred from the lexical marker carried by the feedback string. -/
def getFeedbackClass (feedback : String) : String :=
  if includesStr feedback "✓✓" || includesStr feedback "🏆" then "feedback-excellent"
  else if includesStr feedback "✓" then "feedback-good"
  else if includesStr feedback "⚠️" then "feedback-warning"
  else if includesStr feedback "💡" || includesStr feedback "💪" then "feedback-tip"
  else "feedback-neutral"

/-- A JavaScript score value as seen by the display layer: a finite number,
`NaN`, `undefined`, or `null`. -/
inductive JSVal where
  | nan
  | undef
  | null
  | num (q : ℚ)
deriving DecidableEq, Repr

/-- JavaScript global `isNaN`: coerces its argument with `ToNumber` first,
so `isNaN(undefined)` is `true` while `isNaN(null)` is `false`
(`Number(null) = 0`); finite numbers are never NaN. -/
def jsIsNaN : JSVal → Bool
  | .nan => true
  | .undef => true
  | .null => false
  | .num _ => false

/-- JavaScript `Math.round`: coerces with `ToNumber` (`null` becomes 0,
`undefined` becomes NaN), then rounds half toward positive infinity. -/
def mathRound : JSVal → JSVal
  | .num q => .num ((⌊q + 1 / 2⌋ : ℤ) : ℚ)
  | .null => .num 0
  | .nan => .nan
  | .undef => .nan

/-- The numeric content a `JSVal` renders as; non-numbers contribute 0
(only reached behind guards that already filtered them). -/
def jsDisplayed : JSVal → ℚ
  | .num q => q
  | _ => 0

/-- The score-number text of the ResultsPanel component:
`isNaN(global_score) || global_score === undefined || global_score === null`
renders the fallback `'0'`, otherwise `Math.round(global_score)`. -/
def renderScoreNumber (global_score : JSVal) : ℚ :=
  if jsIsNaN global_score || global_score == JSVal.undef || global_score == JSVal.null
  then 0
  else jsDisplayed (mathRound global_score)

/-- The priority-indicator score text of the ResultsPanel component:
`isNaN(priority_indicator.score)` renders the fallback `'0'`, otherwise
`Math.round(priority_indicator.score)`. -/
def renderPriorityScore (score : JSVal) : ℚ :=
  if jsIsNaN score then 0
  else jsDisplayed (mathRound score)

/-- JavaScript multiplication by 10 under `ToNumber` coercion, as in the
RadarChart data transform (`value * 10`). -/
def jsMulTen : JSVal → JSVal
  | .num q => .num (q * 10)
  | .null => .num 0
  | .nan => .nan
  | .undef => .nan

/-- The RadarChart data transform:
`isNaN(value) ? 0 : Math.round(value * 10) / 10`. -/
def radarScore (value : JSVal) : ℚ :=
  if jsIsNaN value then 0
  else jsDisplayed (mathRound (jsMulTen value)) / 10

/-! ## Claims -/

/-- C1: the global score is the arithmetic mean of the indicator scores,
rounded to one decimal place; evaluated at the worked example of the
implementation summary, whose indicators are alignment 92.3,
core_strength 100.0, symmetry 87.5 and shoulder_position 85.2: the mean is
91.25 and the rounded mean 91.3, while the documented report carries a
global score of 81.5 — which is even below the smallest indicator, so no
averaging of the indicators can produce it. -/
theorem calculate_global_score_example_mismatch :
    calculate_global_score
      [("alignment", 923 / 10), ("core_strength", 100),
       ("symmetry", 875 / 10), ("shoulder_position", 852 / 10)] = 913 / 10 ∧
    (913 / 10 : ℚ) ≠ 815 / 10 ∧
    ∀ p ∈ [("alignment", (923 : ℚ) / 10), ("core_strength", 100),
       ("symmetry", 875 / 10), ("shoulder_position", 852 / 10)],
      (815 / 10 : ℚ) < p.2 := by
  refine ⟨?_, by norm_num, ?_⟩
  · simp only [calculate_global_score, round1, List.map_cons, List.map_nil,
      List.sum_cons, List.sum_nil, List.length_cons, List.length_nil]
    norm_num
  · simp only [List.forall_mem_cons, List.forall_mem_nil]
    norm_num

/-- C2: under the 0.70 confidence gate the builder returns the report
explicitly marked unavailable (no indicators, no global score) regardless of
landmark content; at or above the gate, and absent a hard failure, a full
report with indicators is produced; and the ResultsPanel renderer treats a
report as unavailable exactly when its `indicators` field is absent. -/
theorem analyzeQuality_confidence_gating
    (analyzer : String → List (Landmark ℚ) → List (String × ℚ) × List String)
    (landmarks : List (Landmark ℚ)) (poseName : String) (confidence : ℚ)
    (h33 : landmarks.length = 33) (hpose : poseName ∈ supportedPoses) :
    (confidence < 7 / 10 →
      analyzeQuality analyzer landmarks poseName confidence =
        .ok { pose := poseName, indicators := none, feedback := [],
              global_score := none, skill_level := none,
              priority_indicator := none } ∧
      ∀ r, analyzeQuality analyzer landmarks poseName confidence = .ok r →
        renderQualityAnalysisUnavailable (some r) = true) ∧
    (7 / 10 ≤ confidence →
      ∃ r, analyzeQuality analyzer landmarks poseName confidence = .ok r ∧
        r.indicators = some (analyzer poseName landmarks).1 ∧
        r.global_score =
          some (calculate_global_score (analyzer poseName landmarks).1) ∧
        renderQualityAnalysisUnavailable (some r) = false) ∧
    (∀ r : QualityReport,
      renderQualityAnalysisUnavailable (some r) = true ↔ r.indicators = none) := by
  have hne : ¬ landmarks.length ≠ 33 := by simp [h33]
  have hps : ¬ poseName ∉ supportedPoses := by simp [hpose]
  refine ⟨?_, ?_, ?_⟩
  · intro hc
    constructor
    · unfold analyzeQuality
      rw [if_neg hne, if_neg hps, if_pos hc]
    · intro r hr
      unfold analyzeQuality at hr
      rw [if_neg hne, if_neg hps, if_pos hc] at hr
      cases hr
      rfl
  · intro hc
    refine ⟨{ pose := poseName,
              indicators := some (analyzer poseName landmarks).1,
              feedback := (analyzer poseName landmarks).2,
              global_score :=
                some (calculate_global_score (analyzer poseName landmarks).1),
              skill_level :=
                some (determine_skill_level
                  (calculate_global_score (analyzer poseName landmarks).1)),
              priority_indicator :=
                identify_priority_indicator (analyzer poseName landmarks).1 },
            ?_, rfl, rfl, rfl⟩
    unfold analyzeQuality
    rw [if_neg hne, if_neg hps, if_neg (not_lt.mpr hc)]
  · intro r
    cases hi : r.indicators <;>
      simp [renderQualityAnalysisUnavailable, hi, Option.isNone]

/-- A trivial stand-in posture analyzer, used to instantiate the gating
theorem at a concrete input. -/
def constAnalyzer : String → List (Landmark ℚ) → List (String × ℚ) × List String :=
  fun _ _ => ([("alignment", 50)], [])

/-- 33 landmark records, all at the origin. -/
def originLandmarks : List (Landmark ℚ) :=
  List.replicate 33 ⟨0, 0, 0, 0⟩

/-- C2 witness: the gating theorem applied to 33 concrete landmarks, the
pose "plank" and the concrete confidence 0.40. -/
theorem analyzeQuality_confidence_gating_witness :
    originLandmarks.length = 33 ∧ "plank" ∈ supportedPoses ∧
    (((2 : ℚ) / 5 < 7 / 10 →
      analyzeQuality constAnalyzer originLandmarks "plank" (2 / 5) =
        .ok { pose := "plank", indicators := none, feedback := [],
              global_score := none, skill_level := none,
              priority_indicator := none } ∧
      ∀ r, analyzeQuality constAnalyzer originLandmarks "plank" (2 / 5) = .ok r →
        renderQualityAnalysisUnavailable (some r) = true) ∧
    ((7 : ℚ) / 10 ≤ 2 / 5 →
      ∃ r, analyzeQuality constAnalyzer originLandmarks "plank" (2 / 5) = .ok r ∧
        r.indicators = some (constAnalyzer "plank" originLandmarks).1 ∧
        r.global_score =
          some (calculate_global_score (constAnalyzer "plank" originLandmarks).1) ∧
        renderQualityAnalysisUnavailable (some r) = false) ∧
    (∀ r : QualityReport,
      renderQualityAnalysisUnavailable (some r) = true ↔ r.indicators = none)) :=
  ⟨by simp [originLandmarks], by simp [supportedPoses],
    analyzeQuality_confidence_gating constAnalyzer originLandmarks "plank" (2 / 5)
      (by simp [originLandmarks]) (by simp [supportedPoses])⟩

/-- C3: for a non-empty IndicatorSet, the priority indicator is the entry
with the minimum score, and when several tie for the minimum the
first-declared one wins: everything declared before the selected entry is
strictly greater. -/
theorem identify_priority_indicator_first_min
    (indicators : List (String × ℚ)) (h : indicators ≠ []) :
    ∃ p l₁ l₂, identify_priority_indicator indicators = some p ∧
      indicators = l₁ ++ p :: l₂ ∧
      (∀ q ∈ indicators, p.2 ≤ q.2) ∧
      (∀ q ∈ l₁, p.2 < q.2) := by
  induction indicators with
  | nil => exact absurd rfl h
  | cons x xs ih =>
    by_cases hxs : xs = []
    · subst hxs
      exact ⟨x, [], [], rfl, rfl, by simp, by simp⟩
    · obtain ⟨p, l₁, l₂, hp, hdecomp, hmin, hpref⟩ := ih hxs
      by_cases hlt : p.2 < x.2
      · refine ⟨p, x :: l₁, l₂, ?_, ?_, ?_, ?_⟩
        · simp only [identify_priority_indicator, hp]
          rw [if_pos hlt]
        · rw [List.cons_append, hdecomp]
        · intro q hq
          rcases List.mem_cons.mp hq with h1 | h2
          · rw [h1]; exact hlt.le
          · exact hmin q h2
        · intro q hq
          rcases List.mem_cons.mp hq with h1 | h2
          · rw [h1]; exact hlt
          · exact hpref q h2
      · refine ⟨x, [], xs, ?_, rfl, ?_, by simp⟩
        · simp only [identify_priority_indicator, hp]
          rw [if_neg hlt]
        · intro q hq
          rcases List.mem_cons.mp hq with h1 | h2
          · rw [h1]
          · exact le_trans (not_lt.mp hlt) (hmin q h2)

/-- C3 witness: the priority-selection theorem applied to a concrete
IndicatorSet with a tie for the minimum; the first-declared of the two tied
indicators is selected. -/
theorem identify_priority_indicator_first_min_witness :
    ([("symmetry", 50), ("alignment", 50), ("core_strength", 80)] :
        List (String × ℚ)) ≠ [] ∧
    ∃ p l₁ l₂,
      identify_priority_indicator
        [("symmetry", 50), ("alignment", 50), ("core_strength", 80)] = some p ∧
      ([("symmetry", 50), ("alignment", 50), ("core_strength", 80)] :
          List (String × ℚ)) = l₁ ++ p :: l₂ ∧
      (∀ q ∈ ([("symmetry", 50), ("alignment", 50), ("core_strength", 80)] :
          List (String × ℚ)), p.2 ≤ q.2) ∧
      (∀ q ∈ l₁, p.2 < q.2) :=
  ⟨by simp, identify_priority_indicator_first_min _ (by simp)⟩

/-- C4 counterexample: the presentation-side skill-level mapping has no
dedicated label for the fourth enumeration value "expert" — the lookup
misses and `getSkillLevelLabel` falls back to returning the raw value. -/
theorem getSkillLevelLabel_expert_missing :
    skillLabels.lookup "expert" = none ∧
    getSkillLevelLabel "expert" = "expert" := by
  constructor <;> rfl

/-- C4 (amended): the skill level is drawn from the four-element enumeration
beginner / intermediate / advanced / expert, but the presentation-side
mapping carries dedicated labels only for the first three; "expert" is not
in the label table and is rendered through the generic fallback. -/
theorem determine_skill_level_enum_and_labels :
    (∀ q : ℚ, determine_skill_level q ∈
      ["beginner", "intermediate", "advanced", "expert"]) ∧
    getSkillLevelLabel "beginner" = "Débutant" ∧
    getSkillLevelLabel "intermediate" = "Intermédiaire" ∧
    getSkillLevelLabel "advanced" = "Avancé" ∧
    (skillLabels.lookup "expert").isNone = true := by
  refine ⟨?_, rfl, rfl, rfl, rfl⟩
  intro q
  unfold determine_skill_level
  split_ifs <;> simp

/-- C5 counterexample: two runs of the MediaPipe results handler on the
identical landmark input, at clock instants 0 and 1, produce different
payloads — the payload embeds `Date.now()`. -/
theorem handleMediaPipeResults_wallclock_dependent :
    handleMediaPipeResults [⟨0, 0, 0, 0⟩] 0 ≠ handleMediaPipeResults [⟨0, 0, 0, 0⟩] 1 := by
  decide

/-- C5 (amended): the analysis pipeline introduces no randomness — the
landmark content of the results payload is a pure function of the landmark
input — but the payload additionally embeds the wall clock: two payloads
for identical landmark input are identical exactly when the clock reads are
equal (or no pose was detected at all). -/
theorem handleMediaPipeResults_deterministic_up_to_timestamp
    (lmks : List (Landmark ℚ)) (t₁ t₂ : ℕ) :
    (handleMediaPipeResults lmks t₁).map ResultsPayload.landmarks =
      (handleMediaPipeResults lmks t₂).map ResultsPayload.landmarks ∧
    (handleMediaPipeResults lmks t₁ = handleMediaPipeResults lmks t₂ ↔
      (lmks = [] ∨ t₁ = t₂)) := by
  unfold handleMediaPipeResults
  by_cases h : lmks.length > 0
  · rw [if_pos h, if_pos h]
    refine ⟨rfl, ?_, ?_⟩
    · intro he
      right
      have := congrArg (Option.map ResultsPayload.timestamp) he
      simpa using this
    · rintro (hl | ht)
      · rw [hl] at h
        simp at h
      · rw [ht]
  · rw [if_neg h, if_neg h]
    have hnil : lmks = [] := List.length_eq_zero.mp (Nat.le_zero.mp (not_lt.mp h))
    exact ⟨rfl, by simp [hnil]⟩

/-- C6: for every triple of points, `calculateAngle` lies in [0, 180]
degrees: it is the absolute difference of the two atan2 directions
converted to degrees whenever that difference is at most 180, and the
reflection 360 minus that difference when it exceeds 180. -/
theorem calculateAngle_range_normalized (a b c : Landmark ℝ) :
    0 ≤ calculateAngle a b c ∧ calculateAngle a b c ≤ 180 ∧
    (|(atan2 (c.y - b.y) (c.x - b.x) - atan2 (a.y - b.y) (a.x - b.x))
        * 180 / Real.pi| ≤ 180 →
      calculateAngle a b c =
        |(atan2 (c.y - b.y) (c.x - b.x) - atan2 (a.y - b.y) (a.x - b.x))
          * 180 / Real.pi|) ∧
    (180 < |(atan2 (c.y - b.y) (c.x - b.x) - atan2 (a.y - b.y) (a.x - b.x))
        * 180 / Real.pi| →
      calculateAngle a b c =
        360 - |(atan2 (c.y - b.y) (c.x - b.x) - atan2 (a.y - b.y) (a.x - b.x))
          * 180 / Real.pi|) :=
  ⟨(calculateAngle_bounds a b c).1, (calculateAngle_bounds a b c).2,
   (calculateAngle_eq_cases a b c).1, (calculateAngle_eq_cases a b c).2⟩

/-- C6 witness: the range-and-normalization theorem instantiated at a
concrete right-angle configuration. -/
theorem calculateAngle_range_normalized_witness :
    0 ≤ calculateAngle ⟨1, 0, 0, 0⟩ ⟨0, 0, 0, 0⟩ ⟨0, 1, 0, 0⟩ ∧
    calculateAngle ⟨1, 0, 0, 0⟩ ⟨0, 0, 0, 0⟩ ⟨0, 1, 0, 0⟩ ≤ 180 ∧
    (|(atan2 ((⟨0, 1, 0, 0⟩ : Landmark ℝ).y - (⟨0, 0, 0, 0⟩ : Landmark ℝ).y)
          ((⟨0, 1, 0, 0⟩ : Landmark ℝ).x - (⟨0, 0, 0, 0⟩ : Landmark ℝ).x) -
        atan2 ((⟨1, 0, 0, 0⟩ : Landmark ℝ).y - (⟨0, 0, 0, 0⟩ : Landmark ℝ).y)
          ((⟨1, 0, 0, 0⟩ : Landmark ℝ).x - (⟨0, 0, 0, 0⟩ : Landmark ℝ).x))
        * 180 / Real.pi| ≤ 180 →
      calculateAngle ⟨1, 0, 0, 0⟩ ⟨0, 0, 0, 0⟩ ⟨0, 1, 0, 0⟩ =
        |(atan2 ((⟨0, 1, 0, 0⟩ : Landmark ℝ).y - (⟨0, 0, 0, 0⟩ : Landmark ℝ).y)
            ((⟨0, 1, 0, 0⟩ : Landmark ℝ).x - (⟨0, 0, 0, 0⟩ : Landmark ℝ).x) -
          atan2 ((⟨1, 0, 0, 0⟩ : Landmark ℝ).y - (⟨0, 0, 0, 0⟩ : Landmark ℝ).y)
            ((⟨1, 0, 0, 0⟩ : Landmark ℝ).x - (⟨0, 0, 0, 0⟩ : Landmark ℝ).x))
          * 180 / Real.pi|) ∧
    (180 < |(atan2 ((⟨0, 1, 0, 0⟩ : Landmark ℝ).y - (⟨0, 0, 0, 0⟩ : Landmark ℝ).y)
          ((⟨0, 1, 0, 0⟩ : Landmark ℝ).x - (⟨0, 0, 0, 0⟩ : Landmark ℝ).x) -
        atan2 ((⟨1, 0, 0, 0⟩ : Landmark ℝ).y - (⟨0, 0, 0, 0⟩ : Landmark ℝ).y)
          ((⟨1, 0, 0, 0⟩ : Landmark ℝ).x - (⟨0, 0, 0, 0⟩ : Landmark ℝ).x))
        * 180 / Real.pi| →
      calculateAngle ⟨1, 0, 0, 0⟩ ⟨0, 0, 0, 0⟩ ⟨0, 1, 0, 0⟩ =
        360 - |(atan2 ((⟨0, 1, 0, 0⟩ : Landmark ℝ).y - (⟨0, 0, 0, 0⟩ : Landmark ℝ).y)
            ((⟨0, 1, 0, 0⟩ : Landmark ℝ).x - (⟨0, 0, 0, 0⟩ : Landmark ℝ).x) -
          atan2 ((⟨1, 0, 0, 0⟩ : Landmark ℝ).y - (⟨0, 0, 0, 0⟩ : Landmark ℝ).y)
            ((⟨1, 0, 0, 0⟩ : Landmark ℝ).x - (⟨0, 0, 0, 0⟩ : Landmark ℝ).x))
          * 180 / Real.pi|) :=
  calculateAngle_range_normalized ⟨1, 0, 0, 0⟩ ⟨0, 0, 0, 0⟩ ⟨0, 1, 0, 0⟩

/-- C7 counterexample: at the degenerate input a = b = (0,0), c = (0,1) —
one direction vector has zero length — `calculateAngle` returns 90 degrees,
not the sentinel 0: JavaScript's `atan2(0,0)` is 0, so the other ray's
absolute direction survives. -/
theorem calculateAngle_degenerate_not_zero :
    calculateAngle ⟨0, 0, 0, 0⟩ ⟨0, 0, 0, 0⟩ ⟨0, 1, 0, 0⟩ = 90 ∧ (90 : ℝ) ≠ 0 := by
  constructor
  · simp only [calculateAngle, atan2]
    norm_num
    rw [show (⟨0, 1⟩ : ℂ) = Complex.I from rfl, Complex.arg_I,
      show (⟨0, 0⟩ : ℂ) = 0 from rfl, Complex.arg_zero, sub_zero]
    have h90 : Real.pi / 2 * 180 / Real.pi = 90 := by
      field_simp
      ring
    rw [h90]
    norm_num
  · norm_num

/-- C7 (amended): on degenerate input — an endpoint coinciding with the
vertex in the x,y plane — `calculateAngle` never raises (it is total) and
stays within [0, 180]; it returns the 0-degree sentinel when both direction
vectors are zero-length, but with a single zero-length vector it returns
the normalized absolute direction of the remaining ray, which is generally
nonzero. -/
theorem calculateAngle_degenerate_total (a b c : Landmark ℝ)
    (_degenerate : (a.x = b.x ∧ a.y = b.y) ∨ (c.x = b.x ∧ c.y = b.y)) :
    0 ≤ calculateAngle a b c ∧ calculateAngle a b c ≤ 180 ∧
    ((a.x = b.x ∧ a.y = b.y) → (c.x = b.x ∧ c.y = b.y) →
      calculateAngle a b c = 0) := by
  refine ⟨(calculateAngle_bounds a b c).1, (calculateAngle_bounds a b c).2, ?_⟩
  rintro ⟨hax, hay⟩ ⟨hcx, hcy⟩
  simp only [calculateAngle, atan2, hax, hay, hcx, hcy, sub_self]
  norm_num

/-- C7 witness: the degenerate-input theorem applied at the concrete input
a = b = origin, c = (0,1), whose first ray is zero-length. -/
theorem calculateAngle_degenerate_total_witness :
    (((⟨0, 0, 0, 0⟩ : Landmark ℝ).x = (⟨0, 0, 0, 0⟩ : Landmark ℝ).x ∧
      (⟨0, 0, 0, 0⟩ : Landmark ℝ).y = (⟨0, 0, 0, 0⟩ : Landmark ℝ).y) ∨
     ((⟨0, 1, 0, 0⟩ : Landmark ℝ).x = (⟨0, 0, 0, 0⟩ : Landmark ℝ).x ∧
      (⟨0, 1, 0, 0⟩ : Landmark ℝ).y = (⟨0, 0, 0, 0⟩ : Landmark ℝ).y)) ∧
    (0 ≤ calculateAngle ⟨0, 0, 0, 0⟩ ⟨0, 0, 0, 0⟩ ⟨0, 1, 0, 0⟩ ∧
     calculateAngle ⟨0, 0, 0, 0⟩ ⟨0, 0, 0, 0⟩ ⟨0, 1, 0, 0⟩ ≤ 180 ∧
     (((⟨0, 0, 0, 0⟩ : Landmark ℝ).x = (⟨0, 0, 0, 0⟩ : Landmark ℝ).x ∧
       (⟨0, 0, 0, 0⟩ : Landmark ℝ).y = (⟨0, 0, 0, 0⟩ : Landmark ℝ).y) →
      ((⟨0, 1, 0, 0⟩ : Landmark ℝ).x = (⟨0, 0, 0, 0⟩ : Landmark ℝ).x ∧
       (⟨0, 1, 0, 0⟩ : Landmark ℝ).y = (⟨0, 0, 0, 0⟩ : Landmark ℝ).y) →
      calculateAngle ⟨0, 0, 0, 0⟩ ⟨0, 0, 0, 0⟩ ⟨0, 1, 0, 0⟩ = 0)) :=
  ⟨Or.inl ⟨rfl, rfl⟩,
   calculateAngle_degenerate_total ⟨0, 0, 0, 0⟩ ⟨0, 0, 0, 0⟩ ⟨0, 1, 0, 0⟩
     (Or.inl ⟨rfl, rfl⟩)⟩

/-- C8: `calculateDistance` is the Euclidean distance in the x,y plane and
is invariant under any modification of the z coordinates of its
arguments. -/
theorem calculateDistance_planar (a b : Landmark ℝ) (za zb : ℝ) :
    calculateDistance a b = Real.sqrt ((a.x - b.x) ^ 2 + (a.y - b.y) ^ 2) ∧
    calculateDistance { a with z := za } { b with z := zb } =
      calculateDistance a b :=
  ⟨rfl, rfl⟩

/-- C9 counterexample: a tip-marked and an encouragement-marked feedback
message are assigned the same severity class "feedback-tip" by the
presentation-side classifier — the five markers do not yield five distinct
severities. -/
theorem getFeedbackClass_tip_encouragement_same :
    getFeedbackClass "💡 Essayez de pousser le sol" = "feedback-tip" ∧
    getFeedbackClass "💪 Continuez vos efforts" = "feedback-tip" ∧
    getFeedbackClass "💡 Essayez de pousser le sol" =
      getFeedbackClass "💪 Continuez vos efforts" := by
  refine ⟨by decide, by decide, by decide⟩

/-- C9 (amended): severity is encoded by fixed lexical markers, and the
classifier distinguishes four marker classes plus a neutral fallback:
double-check or trophy markers map to "excellent", a single check to
"good", the warning sign to "warning", while the tip and encouragement
markers are both mapped to the single class "feedback-tip"; unmarked
messages fall back to "feedback-neutral". -/
theorem getFeedbackClass_marker_classes :
    getFeedbackClass "✓✓ Alignement parfait" = "feedback-excellent" ∧
    getFeedbackClass "🏆 Bravo" = "feedback-excellent" ∧
    getFeedbackClass "✓ Bonne posture" = "feedback-good" ∧
    getFeedbackClass "⚠️ Redressez le dos" = "feedback-warning" ∧
    getFeedbackClass "💡 Gardez les hanches hautes" = "feedback-tip" ∧
    getFeedbackClass "💪 Encore un effort" = "feedback-tip" ∧
    getFeedbackClass "Respirez profondement" = "feedback-neutral" := by
  refine ⟨by decide, by decide, by decide, by decide, by decide, by decide, by decide⟩

/-- C10: for every score value that is NaN, undefined or null, the display
layer renders the fallback 0: the ResultsPanel global-score text and
priority-score text, and the RadarChart data transform, all substitute 0
instead of propagating a non-numeric value. -/
theorem display_fallback_zero :
    renderScoreNumber .nan = 0 ∧ renderScoreNumber .undef = 0 ∧
    renderScoreNumber .null = 0 ∧
    renderPriorityScore .nan = 0 ∧ renderPriorityScore .undef = 0 ∧
    renderPriorityScore .null = 0 ∧
    radarScore .nan = 0 ∧ radarScore .undef = 0 ∧ radarScore .null = 0 := by
  refine ⟨rfl, rfl, rfl, rfl, rfl, ?_, rfl, rfl, ?_⟩ <;> norm_num [renderPriorityScore, radarScore, jsIsNaN, mathRound, jsDisplayed, jsMulTen]
